import Mathlib

/-!
Verification of the DialIndicator curses display program
(`display_curses.py`) against its natural-language specification.

The development shallowly embeds the relevant parts of the source:

* the serial line parser (`INDICATOR_RE` and
  `IndicatorDisplay.display_number`, lines 23 and 815-824),
* the glyph catalog (`CHAR_SET1` .. `CHAR_SET4`, `CHAR_SETS`,
  `BASE_CHARACTERS`),
* the curses rendering path (`_display_char`, `update_page`,
  `_foot_note`), with the curses screen modelled explicitly and
  `curses.error` / Python `TypeError` modelled with an error type,
* the style/font cycling handlers (`handle_f1`, `handle_f2`),
* the serial branch of the select loop (`select_loop`, lines 889-899),
* the startup/port-discovery logic (`GetPort`, `main`, and the
  `IOError` handler of `select_loop`).

Python floats are modelled as rationals: every numeric literal the
program parses and every formatting step used by the claims is exact at
the precision involved.
-/

/-! ### Line protocol parser

`INDICATOR_RE = re.compile(r'(?P<number>-?\d+\.\d+)\s+(?P<unit>\S+)')`
used via `INDICATOR_RE.match(number)` (anchored at the start of the
string only).  For this particular pattern, greedy matching with
backtracking coincides with maximal-munch runs, which is how
`matchIndicator` is written: `\d+` cannot give characters back to the
literal `\.` (a digit is never `.`), and `\s+`/`\S+` partition on a
single character class.  Character classes are modelled at their ASCII
meaning, which is exact for every byte the serial protocol produces. -/

def isDigitC (c : Char) : Bool := '0' ≤ c && c ≤ '9'

def isWsC (c : Char) : Bool :=
  c = ' ' || c = '\t' || c = '\n' || c = '\r' || c = '\x0b' || c = '\x0c'

def digitsToNat (l : List Char) : Nat :=
  l.foldl (fun a c => 10 * a + (c.toNat - '0'.toNat)) 0

/-- Value of a decimal literal `D+.D+` (list form, no sign). -/
def unsignedLitVal (l : List Char) : ℚ :=
  let intD := l.takeWhile isDigitC
  let rest := l.dropWhile isDigitC
  let fracD := match rest with
    | '.' :: r => r.takeWhile isDigitC
    | _ => []
  (digitsToNat intD : ℚ) + (digitsToNat fracD : ℚ) / (10 : ℚ) ^ fracD.length

/-- `float(lit)` on a literal matched by the `number` group: Python parses
the signed decimal literal; on such literals the value is the exact
decimal value (modelled in ℚ). -/
def pyFloatOfLiteral (lit : String) : ℚ :=
  match lit.data with
  | '-' :: rest => -(unsignedLitVal rest)
  | cs => unsignedLitVal cs

/-- `INDICATOR_RE.match(line)`: `some (numberGroup, unitGroup)` on a
match at the start of the line, `none` otherwise. -/
def matchIndicator (line : String) : Option (String × String) :=
  let cs := line.data
  let signAndRest : List Char × List Char :=
    match cs with
    | '-' :: r => ([ '-' ], r)
    | _ => ([], cs)
  let sgn := signAndRest.1
  let cs1 := signAndRest.2
  let d1 := cs1.takeWhile isDigitC
  let r1 := cs1.dropWhile isDigitC
  if d1.isEmpty then none else
  match r1 with
  | '.' :: r2 =>
    let d2 := r2.takeWhile isDigitC
    let r3 := r2.dropWhile isDigitC
    if d2.isEmpty then none else
    let ws := r3.takeWhile isWsC
    let r4 := r3.dropWhile isWsC
    if ws.isEmpty then none else
    let ut := r4.takeWhile (fun c => !(isWsC c))
    if ut.isEmpty then none else
    some (String.mk (sgn ++ d1 ++ '.' :: d2), String.mk ut)
  | _ => none

/-- The parse step of `display_number` (lines 817-823): `none` is the
failure sentinel branch (`self.number = '9.999'; self.unit = 'xx'`),
`some (v, u)` the success branch (`float(m.group('number'))` and
`'mm' if m.group('unit') == 'mm' else 'in'`). -/
def parseLine (line : String) : Option (ℚ × String) :=
  (matchIndicator line).map
    (fun g => (pyFloatOfLiteral g.1, if g.2 == "mm" then "mm" else "in"))

/-! ### Glyph catalog

Transcribed verbatim from `CHAR_SET1` .. `CHAR_SET4` and
`BASE_CHARACTERS` in the source.  A `CharSet` is the dict as an
association list in source order. -/

abbrev CharSet := List (Char × List String)
def CHAR_SET1 : CharSet := [
  ( '0',
      [ " ###  ",
        "#   # ",
        "#   # ",
        "#   # ",
        "#   # ",
        "#   # ",
        " ###  ",
        "      "]),
  ( '1',
      [ " ##   ",
        "# #   ",
        "  #   ",
        "  #   ",
        "  #   ",
        "  #   ",
        "##### ",
        "      "]),
  ( '2',
      [ " ###  ",
        "#   # ",
        "    # ",
        " ###  ",
        "#     ",
        "#     ",
        "##### ",
        "      "]),
  ( '3',
      [ " ###  ",
        "#   # ",
        "    # ",
        " ###  ",
        "    # ",
        "#   # ",
        " ###  ",
        "      "]),
  ( '4',
      [ "#   # ",
        "#   # ",
        "#   # ",
        "##### ",
        "    # ",
        "    # ",
        "    # ",
        "      "]),
  ( '5',
      [ "####  ",
        "#     ",
        "#     ",
        " ###  ",
        "    # ",
        "    # ",
        "####  ",
        "      "]),
  ( '6',
      [ " ###  ",
        "#     ",
        "#     ",
        "####  ",
        "#   # ",
        "#   # ",
        " ###  ",
        "      "]),
  ( '7',
      [ "##### ",
        "#   # ",
        "    # ",
        "   #  ",
        "  #   ",
        " #    ",
        " #    ",
        "      "]),
  ( '8',
      [ " ###  ",
        "#   # ",
        "#   # ",
        " ###  ",
        "#   # ",
        "#   # ",
        " ###  ",
        "      "]),
  ( '9',
      [ " ###  ",
        "#   # ",
        "#   # ",
        " #### ",
        "    # ",
        "    # ",
        " ###  ",
        "      "]),
  ( 'i',
      [ "  ",
        "# ",
        "  ",
        "# ",
        "# ",
        "# ",
        "# ",
        "  "]),
  ( 'n',
      [ "      ",
        "      ",
        "      ",
        " ###  ",
        "#   # ",
        "#   # ",
        "#   # ",
        "      "]),
  ( 'm',
      [ "        ",
        "        ",
        "        ",
        " ## ##  ",
        "#  #  # ",
        "#  #  # ",
        "#  #  # ",
        "        "]),
  ( '-',
      [ "    ",
        "    ",
        "    ",
        "### ",
        "    ",
        "    ",
        "    ",
        "    "]),
  ( ' ',
      [ "    ",
        "    ",
        "    ",
        "    ",
        "    ",
        "    ",
        "    ",
        "    "]),
  ( '.',
      [ "  ",
        "  ",
        "  ",
        "  ",
        "  ",
        "  ",
        "# ",
        "  "]),
  ( '?',
      [ " ###  ",
        "#   # ",
        "    # ",
        "   #  ",
        "  #   ",
        "      ",
        "  #   ",
        "      "])
]

def CHAR_SET2 : CharSet := [
  ( '0',
      [ " #####  ",
        "##   ## ",
        "##   ## ",
        "##   ## ",
        "##   ## ",
        "##   ## ",
        " #####  ",
        "        "]),
  ( '1',
      [ " ####   ",
        "#  ##   ",
        "   ##   ",
        "   ##   ",
        "   ##   ",
        "   ##   ",
        "####### ",
        "        "]),
  ( '2',
      [ " #####  ",
        "##   ## ",
        "     ## ",
        " #####  ",
        "##      ",
        "##      ",
        "####### ",
        "        "]),
  ( '3',
      [ " #####  ",
        "##   ## ",
        "     ## ",
        " #####  ",
        "     ## ",
        "##   ## ",
        " #####  ",
        "        "]),
  ( '4',
      [ "##   ## ",
        "##   ## ",
        "##   ## ",
        "####### ",
        "     ## ",
        "     ## ",
        "     ## ",
        "        "]),
  ( '5',
      [ "######  ",
        "##      ",
        "##      ",
        " #####  ",
        "     ## ",
        "     ## ",
        "######  ",
        "        "]),
  ( '6',
      [ " #####  ",
        "##      ",
        "##      ",
        "######  ",
        "##   ## ",
        "##   ## ",
        " #####  ",
        "        "]),
  ( '7',
      [ "####### ",
        "##   ## ",
        "     ## ",
        "    ##  ",
        "   ##   ",
        "  ##    ",
        "  ##    ",
        "        "]),
  ( '8',
      [ " #####  ",
        "##   ## ",
        "##   ## ",
        " #####  ",
        "##   ## ",
        "##   ## ",
        " #####  ",
        "        "]),
  ( '9',
      [ " #####  ",
        "##   ## ",
        "##   ## ",
        " ###### ",
        "     ## ",
        "     ## ",
        " #####  ",
        "        "]),
  ( 'i',
      [ "  ",
        "# ",
        "  ",
        "# ",
        "# ",
        "# ",
        "# ",
        "  "]),
  ( 'n',
      [ "      ",
        "      ",
        "      ",
        " ###  ",
        "#   # ",
        "#   # ",
        "#   # ",
        "      "]),
  ( 'm',
      [ "        ",
        "        ",
        "        ",
        " ## ##  ",
        "#  #  # ",
        "#  #  # ",
        "#  #  # ",
        "        "]),
  ( '-',
      [ "     ",
        "     ",
        "     ",
        "#### ",
        "     ",
        "     ",
        "     ",
        "     "]),
  ( ' ',
      [ "     ",
        "     ",
        "     ",
        "     ",
        "     ",
        "     ",
        "     ",
        "     "]),
  ( '.',
      [ "  ",
        "  ",
        "  ",
        "  ",
        "  ",
        "  ",
        "# ",
        "  "]),
  ( '?',
      [ " #####  ",
        "##   ## ",
        "     ## ",
        "    ##  ",
        "   ##   ",
        "        ",
        "   ##   ",
        "        "])
]

def CHAR_SET3 : CharSet := [
  ( '0',
      [ " #####  ",
        "####### ",
        "##   ## ",
        "##   ## ",
        "##   ## ",
        "##   ## ",
        "##   ## ",
        "####### ",
        " #####  ",
        "        "]),
  ( '1',
      [ " ####   ",
        "#####   ",
        "## ##   ",
        "   ##   ",
        "   ##   ",
        "   ##   ",
        "   ##   ",
        "####### ",
        "####### ",
        "        "]),
  ( '2',
      [ " #####  ",
        "####### ",
        "##   ## ",
        "     ## ",
        " #####  ",
        "##      ",
        "##      ",
        "####### ",
        "####### ",
        "        "]),
  ( '3',
      [ " #####  ",
        "####### ",
        "##   ## ",
        "     ## ",
        " #####  ",
        "     ## ",
        "##   ## ",
        "####### ",
        " #####  ",
        "        "]),
  ( '4',
      [ "##   ## ",
        "##   ## ",
        "##   ## ",
        "##   ## ",
        "####### ",
        "####### ",
        "     ## ",
        "     ## ",
        "     ## ",
        "        "]),
  ( '5',
      [ "######  ",
        "######  ",
        "##      ",
        "##      ",
        " #####  ",
        "     ## ",
        "     ## ",
        "######  ",
        "#####   ",
        "        "]),
  ( '6',
      [ " #####  ",
        "######  ",
        "##      ",
        "##      ",
        "######  ",
        "##   ## ",
        "##   ## ",
        " #####  ",
        "  ###   ",
        "        "]),
  ( '7',
      [ "####### ",
        "####### ",
        "##   ## ",
        "     ## ",
        "    ##  ",
        "   ##   ",
        "  ##    ",
        "  ##    ",
        "  ##    ",
        "        "]),
  ( '8',
      [ " #####  ",
        "####### ",
        "##   ## ",
        "##   ## ",
        " #####  ",
        "##   ## ",
        "##   ## ",
        "####### ",
        " #####  ",
        "        "]),
  ( '9',
      [ " #####  ",
        "####### ",
        "##   ## ",
        "##   ## ",
        " ###### ",
        "     ## ",
        "     ## ",
        " #####  ",
        " ####   ",
        "        "]),
  ( 'i',
      [ "  ",
        "## ",
        "## ",
        "   ",
        "## ",
        "## ",
        "## ",
        "## ",
        "## ",
        "   "]),
  ( 'n',
      [ "        ",
        "        ",
        "        ",
        "        ",
        " #####  ",
        "##   ## ",
        "##   ## ",
        "##   ## ",
        "##   ## ",
        "        "]),
  ( 'm',
      [ "          ",
        "          ",
        "          ",
        "          ",
        " ### ###  ",
        "##  #  ## ",
        "##  #  ## ",
        "##  #  ## ",
        "##  #  ## ",
        "          "]),
  ( '-',
      [ "     ",
        "     ",
        "     ",
        "     ",
        "#### ",
        "     ",
        "     ",
        "     ",
        "     ",
        "     "]),
  ( ' ',
      [ "     ",
        "     ",
        "     ",
        "     ",
        "     ",
        "     ",
        "     ",
        "     ",
        "     ",
        "     "]),
  ( '.',
      [ "   ",
        "   ",
        "   ",
        "   ",
        "   ",
        "   ",
        "   ",
        "## ",
        "## ",
        "   "]),
  ( '?',
      [ " #####  ",
        "####### ",
        "##   ## ",
        "     ## ",
        "    ##  ",
        "   ##   ",
        "   ##   ",
        "        ",
        "   ##   ",
        "        "])
]

def CHAR_SET4 : CharSet := [
  ( '0',
      [ " #######  ",
        "######### ",
        "##     ## ",
        "##     ## ",
        "##     ## ",
        "##     ## ",
        "##     ## ",
        "##     ## ",
        "######### ",
        " #######  ",
        "          "]),
  ( '1',
      [ " #####    ",
        "######    ",
        "## ###    ",
        "   ###    ",
        "   ###    ",
        "   ###    ",
        "   ###    ",
        "   ###    ",
        "######### ",
        "######### ",
        "          "]),
  ( '2',
      [ " #######  ",
        "######### ",
        "##     ## ",
        "       ## ",
        "  ######  ",
        " ######   ",
        "##        ",
        "##        ",
        "######### ",
        "######### ",
        "          "]),
  ( '3',
      [ " #######  ",
        "######### ",
        "##     ## ",
        "       ## ",
        " #######  ",
        " #######  ",
        "       ## ",
        "##     ## ",
        "######### ",
        " #######  ",
        "          "]),
  ( '4',
      [ "##     ## ",
        "##     ## ",
        "##     ## ",
        "##     ## ",
        "######### ",
        "######### ",
        "       ## ",
        "       ## ",
        "       ## ",
        "       ## ",
        "          "]),
  ( '5',
      [ "########  ",
        "########  ",
        "##        ",
        "##        ",
        " ######   ",
        "  ######  ",
        "       ## ",
        "       ## ",
        "########  ",
        "#######   ",
        "          "]),
  ( '6',
      [ " #######  ",
        "########  ",
        "##        ",
        "##        ",
        "#######   ",
        "########  ",
        "##     ## ",
        "##     ## ",
        " #######  ",
        "  #####   ",
        "          "]),
  ( '7',
      [ "######### ",
        "######### ",
        "##     ## ",
        "       ## ",
        "      ##  ",
        "     ##   ",
        "    ##    ",
        "    ##    ",
        "    ##    ",
        "    ##    ",
        "          "]),
  ( '8',
      [ " #######  ",
        "######### ",
        "##     ## ",
        "##     ## ",
        " #######  ",
        " #######  ",
        "##     ## ",
        "##     ## ",
        "######### ",
        " #######  ",
        "          "]),
  ( '9',
      [ " #######  ",
        "######### ",
        "##     ## ",
        "##     ## ",
        " ######## ",
        "  ####### ",
        "       ## ",
        "       ## ",
        " #######  ",
        " ####     ",
        "          "]),
  ( 'i',
      [ "  ",
        "## ",
        "## ",
        "   ",
        "## ",
        "## ",
        "## ",
        "## ",
        "## ",
        "## ",
        "   "]),
  ( 'n',
      [ "        ",
        "        ",
        "        ",
        "        ",
        "        ",
        " #####  ",
        "##   ## ",
        "##   ## ",
        "##   ## ",
        "##   ## ",
        "        "]),
  ( 'm',
      [ "          ",
        "          ",
        "          ",
        "          ",
        "          ",
        " ### ###  ",
        "##  #  ## ",
        "##  #  ## ",
        "##  #  ## ",
        "##  #  ## ",
        "          "]),
  ( '-',
      [ "     ",
        "     ",
        "     ",
        "     ",
        "     ",
        "#### ",
        "     ",
        "     ",
        "     ",
        "     ",
        "     "]),
  ( ' ',
      [ "     ",
        "     ",
        "     ",
        "     ",
        "     ",
        "     ",
        "     ",
        "     ",
        "     ",
        "     ",
        "     "]),
  ( '.',
      [ "   ",
        "   ",
        "   ",
        "   ",
        "   ",
        "   ",
        "   ",
        "   ",
        "## ",
        "## ",
        "   "]),
  ( '?',
      [ " #####  ",
        "####### ",
        "##   ## ",
        "     ## ",
        "    ##  ",
        "   ##   ",
        "   ##   ",
        "   ##   ",
        "        ",
        "   ##   ",
        "        "])
]

def BASE_CHARACTERS_L : List Char := [ ' ', '#', '•', '⬤', '⏺', '●', '⬩', '♦']

/-- `CHAR_SETS = (CHAR_SET1, CHAR_SET2, CHAR_SET3, CHAR_SET4)`. -/
def CHAR_SETS_L : List CharSet := [CHAR_SET1, CHAR_SET2, CHAR_SET3, CHAR_SET4]

/-- Direct dict indexing `cs[c]` (total on the characters present;
`[]` stands for the unreachable missing-key case). -/
def glyphOf (cs : CharSet) (c : Char) : List String := (cs.lookup c).getD []

/-- `self.char_set.get(ch, self.char_set['?'])`: lookup with fallback to
the `'?'` glyph (present in every variant). -/
def csGet (cs : CharSet) (ch : Char) : List String :=
  ((cs.lookup ch).getD ((cs.lookup '?').getD []))

/-- A glyph is rectangular when every row has the same width. -/
def glyphRect (g : List String) : Bool :=
  match g with
  | [] => true
  | r :: rs => rs.all (fun x => x.length == r.length)

def glyphWidth (g : List String) : Nat := (g.headD "").length

def requiredChars : List Char :=
  [ '0', '1', '2', '3', '4', '5', '6', '7', '8', '9', '-', '.', '?']

/-! ### Curses screen model

The terminal window is a `rows × cols` cell grid with a cursor that
curses keeps inside the window.  Drawing primitives return
`curses.error` (modelled as `PyErr.cursesError`) exactly when they
address a cell outside the window; `PyErr.typeError` models the Python
`TypeError` raised by comparing a `str` with an `int`.  Written cells
are logged in `writes`; `clrtoeol`/`clrtobot`/`refresh` only erase or
flush content that no claim observes, so they are state-preserving
here (they never raise). -/

inductive PyErr where
  | cursesError
  | typeError
deriving DecidableEq, Repr

structure Screen where
  rows : Int
  cols : Int
  cy : Int
  cx : Int
  writes : List (Int × Int × Char × Nat)
deriving DecidableEq, Repr

abbrev DrawRes (α : Type) := Except PyErr α × Screen

/-- Cursor inside the window: the invariant curses maintains. -/
def inB (s : Screen) : Prop :=
  0 ≤ s.cy ∧ s.cy < s.rows ∧ 0 ≤ s.cx ∧ s.cx < s.cols

instance (s : Screen) : Decidable (inB s) :=
  inferInstanceAs (Decidable (0 ≤ s.cy ∧ s.cy < s.rows ∧ 0 ≤ s.cx ∧ s.cx < s.cols))

/-- `stdscr.move(r, c)`: raises `curses.error` off-window, else moves
the cursor. -/
def smove (r c : Int) (s : Screen) : DrawRes Unit :=
  if 0 ≤ r ∧ r < s.rows ∧ 0 ≤ c ∧ c < s.cols then
    (Except.ok (), { s with cy := r, cx := c })
  else
    (Except.error PyErr.cursesError, s)

/-- `stdscr.addch(ch, attr)`: writes at the cursor and advances it,
wrapping at the right edge; raises `curses.error` after writing into
the bottom-right corner (the classic curses behaviour). -/
def saddch (ch : Char) (cp : Nat) (s : Screen) : DrawRes Unit :=
  let s1 := { s with writes := (s.cy, s.cx, ch, cp) :: s.writes }
  if s.cx + 1 < s.cols then (Except.ok (), { s1 with cx := s.cx + 1 })
  else if s.cy + 1 < s.rows then (Except.ok (), { s1 with cy := s.cy + 1, cx := 0 })
  else (Except.error PyErr.cursesError, s1)

def sclrtoeol (s : Screen) : Screen := s

def sclrtobot (s : Screen) : Screen := s

def srefresh (s : Screen) : Screen := s

/-- `try: ... except curses.error: pass` around a drawing sequence:
swallows `curses.error` (keeping the partial effects), propagates
everything else (e.g. `TypeError`). -/
def tryCurses (r : DrawRes Unit) : DrawRes Unit :=
  match r with
  | (Except.error PyErr.cursesError, s) => (Except.ok (), s)
  | x => x

/-- Inner loop of `_display_char` over one glyph row (lines 775-780):
each filled cell is drawn with the fill symbol under the active color
pair, each blank cell with `addch(' ')`, with `clrtoeol()` after each
cell. -/
def drawLine (bc : Char) (cp : Nat) : List Char → Screen → DrawRes Unit
  | [], s => (Except.ok (), s)
  | d :: ds, s =>
    match (if d ≠ ' ' then saddch bc cp s else saddch d 0 s) with
    | (Except.ok _, s1) => drawLine bc cp ds (sclrtoeol s1)
    | (Except.error e, s1) => (Except.error e, s1)

/-- One glyph row attempt: `move(row, start_col)` then the row, the
whole thing wrapped in `try/except curses.error` in `_display_char`. -/
def glyphRowAttempt (bc : Char) (cp : Nat) (row col : Int) (l : List Char)
    (s : Screen) : DrawRes Unit :=
  match smove row col s with
  | (Except.ok _, s1) => drawLine bc cp l s1
  | e => e

/-- Loop of `_display_char` over the glyph rows (lines 772-783): the
row counter advances whether or not the row's drawing failed. -/
def drawGlyph (bc : Char) (cp : Nat) (col : Int) :
    List (List Char) → Int → Screen → DrawRes Unit
  | [], _, s => (Except.ok (), s)
  | l :: ls, row, s =>
    match tryCurses (glyphRowAttempt bc cp row col l s) with
    | (Except.ok _, s2) => drawGlyph bc cp col ls (row + 1) s2
    | e => e

/-- `_display_char(ch)` (lines 768-788): remembers the entry cursor,
draws the glyph rows, then moves back to the entry row at the column
reached (`move(start_row, end_col)`, outside any try). -/
def displayChar (cs : CharSet) (bc : Char) (cp : Nat) (ch : Char)
    (s : Screen) : DrawRes Unit :=
  match drawGlyph bc cp s.cx ((csGet cs ch).map String.data) s.cy s with
  | (Except.ok _, s1) => smove s.cy s1.cx s1
  | e => e

/-- `for ch in num_str: self._display_char(ch)` (lines 804-805). -/
def drawChars (cs : CharSet) (bc : Char) (cp : Nat) :
    List Char → Screen → DrawRes Unit
  | [], s => (Except.ok (), s)
  | c :: rest, s =>
    match displayChar cs bc cp c s with
    | (Except.ok _, s1) => drawChars cs bc cp rest s1
    | e => e

def saddstrChars : List Char → Screen → DrawRes Unit
  | [], s => (Except.ok (), s)
  | c :: cs, s =>
    match saddch c 0 s with
    | (Except.ok _, s1) => saddstrChars cs s1
    | e => e

/-- `stdscr.addstr(r, c, str)`. -/
def saddstr (r c : Int) (str : String) (s : Screen) : DrawRes Unit :=
  match smove r c s with
  | (Except.ok _, s1) => saddstrChars str.data s1
  | e => e

/-- The try-body of `_foot_note` (lines 762-764): two footer lines at
`rows-2`/`rows-1` plus `clrtobot()`. -/
def footNoteInner (s : Screen) : DrawRes Unit :=
  match saddstr (s.rows - 2) 0 "<ESC> or <EOT> to exit" s with
  | (Except.ok _, s1) =>
    match saddstr (s.rows - 1) 0 "F1 - Change font, F2 - Change style" s1 with
    | (Except.ok _, s2) => (Except.ok (), sclrtobot s2)
    | e => e
  | e => e

/-- `_foot_note` (lines 759-766): the body above wrapped in
`try/except curses.error`. -/
def footNote (s : Screen) : DrawRes Unit := tryCurses (footNoteInner s)

/-- `len(self.char_set['0'])`: the row count of the `'0'` glyph, used
as the height of the digit block when clearing below it. -/
def glyphHeightZero (cs : CharSet) : Int := ((cs.lookup '0').getD []).length

/-- Try-body of lines 807-809: `move(len(char_set['0']), 0); clrtobot()`. -/
def clearBelowInner (cs : CharSet) (s : Screen) : DrawRes Unit :=
  match smove (glyphHeightZero cs) 0 s with
  | (Except.ok _, t) => (Except.ok (), sclrtobot t)
  | e => e

/-- Lines 806-811: the clear below the digit block, in a
`try/except curses.error`. -/
def clearBelow (cs : CharSet) (s : Screen) : DrawRes Unit :=
  tryCurses (clearBelowInner cs s)

/-! ### Display state (`IndicatorDisplay.__init__`, lines 721-748) -/

/-- `self.number` holds a float normally, but `display_number` assigns
the *string* `'9.999'` on a parse failure; the sum type keeps the two
Python types apart so `n < 0` can be given Python's semantics. -/
inductive NumVal where
  | numF (q : ℚ)
  | numS (s : String)
deriving DecidableEq, Repr

def COLOR_PAIR_GRN_ON_GRN : Nat := 1
def COLOR_PAIR_RED_ON_RED : Nat := 2
def COLOR_PAIR_GRN_ON_BLK : Nat := 3
def COLOR_PAIR_RED_ON_BLK : Nat := 4

structure DState where
  char_set : CharSet
  base_char : Char
  number : NumVal
  unit : String
  pair_positive : Nat
  pair_negative : Nat
  color_pair : Nat
deriving DecidableEq, Repr

/-- The state `__init__` leaves behind: `char_set = CHAR_SETS[0]`,
`base_char = BASE_CHARACTERS[4]`, `number = 0`, `unit = 'mm'`,
positive/negative pairs on black. -/
def initState : DState :=
  { char_set := CHAR_SET1
    base_char := '⏺'
    number := NumVal.numF 0
    unit := "mm"
    pair_positive := COLOR_PAIR_GRN_ON_BLK
    pair_negative := COLOR_PAIR_RED_ON_BLK
    color_pair := COLOR_PAIR_GRN_ON_BLK }

/-- A fresh `rows × cols` window with the cursor at the origin. -/
def scr (rows cols : Int) : Screen :=
  { rows := rows, cols := cols, cy := 0, cx := 0, writes := [] }

/-! ### Number formatting (`update_page`, lines 793-801)

`f'{sign}{abs(n):0.{d}f} {unit}'`: Python formats the double with `d`
digits after the point, rounding half-to-even; on the rational model
this is `roundHalfEven (q * 10^d)` (exact whenever the value has at
most `d` decimals, which covers every value these claims touch). -/

/-- Round-half-even of the fraction `a / b` (with `b > 0`): the
rounding Python applies at the last kept decimal place. -/
def roundHalfEvenFrac (a : Int) (b : Nat) : Int :=
  let f := a.fdiv b
  let r := a - f * b
  if 2 * r < (b : Int) then f
  else if (b : Int) < 2 * r then f + 1
  else if f % 2 = 0 then f else f + 1

def pow10 : Nat → Nat
  | 0 => 1
  | n + 1 => 10 * pow10 n

def padZeros (d : Nat) (s : String) : String :=
  String.mk (List.replicate (d - s.length) '0') ++ s

/-- `f'{q:0.{d}f}'` for a nonnegative rational: round `q * 10^d`
half-to-even, then print with the point re-inserted `d` places from
the right.  Computed on `q.num`/`q.den` so that it evaluates by kernel
reduction. -/
def formatFixed (q : ℚ) (d : Nat) : String :=
  let m := (roundHalfEvenFrac (q.num * (pow10 d : Int)) q.den).toNat
  toString (m / pow10 d) ++ "." ++ padZeros d (toString (m % pow10 d))

/-- `abs(n)` on the rational model. -/
def pyAbs (q : ℚ) : ℚ := if q < 0 then Rat.neg q else q

/-- `num_str = f'{sign}{abs(n):0.{d}f} {self.unit}'` with
`d = 2 if self.unit == 'mm' else 4` and `sign = '-' if n < 0 else ' '`. -/
def numString (n : ℚ) (unit : String) : String :=
  let d : Nat := if unit == "mm" then 2 else 4
  let sign : Char := if n < 0 then '-' else ' '
  String.mk [sign] ++ formatFixed (pyAbs n) d ++ " " ++ unit

/-! ### `update_page` (lines 792-813) -/

/-- Sequencing of a drawing step whose error (outside any try) aborts
`update_page` and propagates, as an uncaught Python exception would. -/
def andThenU (r : DrawRes Unit) (k : Screen → Except PyErr DState × Screen) :
    Except PyErr DState × Screen :=
  match r with
  | (Except.ok _, t) => k t
  | (Except.error e, t) => (Except.error e, t)

/-- The state `update_page` leaves behind for a numeric value: only
`color_pair` changes, picked by the sign (`self.color_pair =
self.pair_negative` when `sign == '-'`, else `self.pair_positive`). -/
def repaintState (st : DState) (n : ℚ) : DState :=
  { st with color_pair := if n < 0 then st.pair_negative else st.pair_positive }

/-- Body of `update_page` after the sign test, for the already-mutated
state `st'` (lines 802-813): draw `num_str` glyph by glyph from the
origin, clear below the digit block, write the footer, refresh. -/
def updatePageNum (st' : DState) (n : ℚ) (s : Screen) :
    Except PyErr DState × Screen :=
  andThenU (smove 0 0 s) (fun s1 =>
    andThenU (drawChars st'.char_set st'.base_char st'.color_pair
        (numString n st'.unit).data s1) (fun s2 =>
      andThenU (clearBelow st'.char_set s2) (fun s3 =>
        andThenU (footNote s3) (fun s4 =>
          (Except.ok st', srefresh s4)))))

/-- `update_page`: picks the color pair from the sign (raising
`TypeError` if `self.number` is the failure-sentinel *string*, since
`'9.999' < 0` compares `str` with `int`), draws `num_str` glyph by
glyph from the origin, clears below the digit block, writes the footer
and refreshes.  Returns the mutated state. -/
def updatePage (st : DState) (s : Screen) : Except PyErr DState × Screen :=
  match st.number with
  | NumVal.numS _ => (Except.error PyErr.typeError, s)
  | NumVal.numF n => updatePageNum (repaintState st n) n s

/-- `display_number(number)` (lines 815-824): parse, store, repaint. -/
def displayNumber (line : String) (st : DState) (s : Screen) :
    Except PyErr DState × Screen :=
  let st' := match parseLine line with
    | none => { st with number := NumVal.numS "9.999", unit := "xx" }
    | some vu => { st with number := NumVal.numF vu.1, unit := vu.2 }
  updatePage st' s

/-! ### Font and style cycling (`handle_f1`/`handle_f2`, lines 826-844) -/

/-- `i = CHAR_SETS.index(self.char_set); CHAR_SETS[(i+1) % len]`.  The
four sets are pairwise distinct, so `.index` of a member is its
position. -/
def nextFont (cs : CharSet) : CharSet :=
  CHAR_SETS_L.getD ((CHAR_SETS_L.indexOf cs + 1) % CHAR_SETS_L.length) []

def handleF1 (st : DState) (s : Screen) : Except PyErr DState × Screen :=
  updatePage { st with char_set := nextFont st.char_set } s

def nextBase (bc : Char) : Char :=
  BASE_CHARACTERS_L.getD ((BASE_CHARACTERS_L.indexOf bc + 1) % BASE_CHARACTERS_L.length) ' '

/-- The positive pair `handle_f2` installs for a fill symbol: same-on-same
for the blank sentinel, on-black otherwise. -/
def derivedPosPair (bc : Char) : Nat :=
  if bc = ' ' then COLOR_PAIR_GRN_ON_GRN else COLOR_PAIR_GRN_ON_BLK

def derivedNegPair (bc : Char) : Nat :=
  if bc = ' ' then COLOR_PAIR_RED_ON_RED else COLOR_PAIR_RED_ON_BLK

/-- The state `handle_f2` builds before repainting: the next fill
symbol and the pairs derived from it. -/
def f2State (st : DState) : DState :=
  { st with
    base_char := nextBase st.base_char
    pair_positive := derivedPosPair (nextBase st.base_char)
    pair_negative := derivedNegPair (nextBase st.base_char) }

def handleF2 (st : DState) (s : Screen) : Except PyErr DState × Screen :=
  updatePage (f2State st) s

/-- Repeated invocation of a handler, stopping on a raised error. -/
def iterState (f : DState → Screen → Except PyErr DState × Screen) :
    Nat → DState → Screen → Except PyErr DState × Screen
  | 0, st, s => (Except.ok st, s)
  | n + 1, st, s =>
    match f st s with
    | (Except.ok st', s') => iterState f n st' s'
    | e => e

/-! ### Serial branch of the select loop (lines 892-899)

    chars = monitor.read_until()
    if chars:
      line += chars.decode('utf8')
    if line.endswith('\n'):
      id.display_number(line)
      line = ''

`serialStep buf chunk` returns the list of lines handed to
`display_number` by this iteration and the buffer it leaves behind. -/

def endsWithNl (s : String) : Bool := s.data.getLast? == some '\n'

def serialStep (buf chunk : String) : List String × String :=
  let line := if chunk == "" then buf else buf ++ chunk
  if endsWithNl line then ([line], "") else ([], line)

/-! ### Startup (`GetPort` lines 25-40, `main` lines 913-957, and the
`IOError` handler of `select_loop` lines 903-905) -/

structure PortInfo where
  port : String
  desc : String
  hwid : String
deriving DecidableEq, Repr

def portLine (p : PortInfo) : String :=
  "port=" ++ p.port ++ ", desc=" ++ p.desc ++ ", hwid=" ++ p.hwid

inductive StartupOutcome where
  | exited (code : Int) (printed : List String)
  | portChosen (p : String)
deriving DecidableEq, Repr

/-- `GetPort(list_only)` over the comport scan result. -/
def GetPort (list_only : Bool) (port_list : List PortInfo) : StartupOutcome :=
  match port_list with
  | [] => StartupOutcome.exited 0 ["No ports found"]
  | p0 :: rest =>
    if list_only || 1 < (p0 :: rest).length then
      StartupOutcome.exited 0 ((p0 :: rest).map portLine)
    else
      StartupOutcome.portChosen p0.port

/-- `main`: `if args.list_ports or not args.port: args.port = GetPort(...)`. -/
def mainStartup (list_ports : Bool) (port : Option String)
    (comports : List PortInfo) : StartupOutcome :=
  if list_ports || port.isNone then GetPort list_ports comports
  else StartupOutcome.portChosen (port.getD "")

structure LoopStart where
  exitCode : Option Int
  terminalInitialized : Bool
  messages : List String
deriving DecidableEq, Repr

/-- Opening phase of `select_loop`: `serial.Serial(...)` is entered
*before* `IndicatorDisplay()` in the `with` statement, so when the open
raises `IOError` the handler prints and calls `sys.exit(-1)` with
curses never initialized. -/
def selectLoopStartup (openErr : Option String) : LoopStart :=
  match openErr with
  | some e =>
    { exitCode := some (-1)
      terminalInitialized := false
      messages := ["Problem opening monitor: " ++ e] }
  | none =>
    { exitCode := none, terminalInitialized := true, messages := [] }

/-! ### Rendering invariants

The drawing primitives keep the window geometry, keep the cursor inside
the window, and raise only `curses.error` (never `TypeError`); the
try-wrapped blocks therefore always return `ok`, and the two moves that
`update_page`/`_display_char` perform outside a try (`move(0, 0)` and
`move(start_row, end_col)`) target coordinates the cursor invariant
guarantees to be in-window.  Together this yields `updatePage_ok`: a
repaint of a numeric value never raises, whatever the geometry. -/

def stepOk (s : Screen) (r : DrawRes Unit) : Prop :=
  r.2.rows = s.rows ∧ r.2.cols = s.cols ∧ (inB s → inB r.2) ∧
    r.1 ≠ Except.error PyErr.typeError

theorem stepOk_seq {s t : Screen} {r : DrawRes Unit}
    (h1r : t.rows = s.rows) (h1c : t.cols = s.cols) (h1b : inB s → inB t)
    (h2 : stepOk t r) : stepOk s r := by
  obtain ⟨a, b, c, d⟩ := h2
  exact ⟨a.trans h1r, b.trans h1c, fun hb => c (h1b hb), d⟩

theorem smove_stepOk (r c : Int) (s : Screen) : stepOk s (smove r c s) := by
  unfold stepOk smove
  split
  next h => exact ⟨rfl, rfl, fun _ => ⟨h.1, h.2.1, h.2.2.1, h.2.2.2⟩, by simp⟩
  next h => exact ⟨rfl, rfl, fun hb => hb, by simp⟩

theorem saddch_stepOk (ch : Char) (cp : Nat) (s : Screen) :
    stepOk s (saddch ch cp s) := by
  unfold stepOk saddch
  split
  next h =>
    refine ⟨rfl, rfl, fun hb => ?_, by simp⟩
    obtain ⟨b1, b2, b3, b4⟩ := hb
    show 0 ≤ s.cy ∧ s.cy < s.rows ∧ 0 ≤ s.cx + 1 ∧ s.cx + 1 < s.cols
    omega
  next h =>
    split
    next h2 =>
      refine ⟨rfl, rfl, fun hb => ?_, by simp⟩
      obtain ⟨b1, b2, b3, b4⟩ := hb
      show 0 ≤ s.cy + 1 ∧ s.cy + 1 < s.rows ∧ 0 ≤ (0 : Int) ∧ 0 < s.cols
      omega
    next h2 =>
      refine ⟨rfl, rfl, fun hb => ?_, by simp⟩
      obtain ⟨b1, b2, b3, b4⟩ := hb
      show 0 ≤ s.cy ∧ s.cy < s.rows ∧ 0 ≤ s.cx ∧ s.cx < s.cols
      exact ⟨b1, b2, b3, b4⟩

theorem tryCurses_ok {s : Screen} {r : DrawRes Unit} (h : stepOk s r) :
    ∃ t, tryCurses r = (Except.ok (), t) ∧
      t.rows = s.rows ∧ t.cols = s.cols ∧ (inB s → inB t) := by
  obtain ⟨h1, h2, h3, h4⟩ := h
  rcases r with ⟨re, t⟩
  cases re with
  | ok u => cases u; exact ⟨t, rfl, h1, h2, h3⟩
  | error e =>
    cases e with
    | cursesError => exact ⟨t, rfl, h1, h2, h3⟩
    | typeError => exact absurd rfl h4

theorem drawLine_stepOk (bc : Char) (cp : Nat) :
    ∀ (l : List Char) (s : Screen), stepOk s (drawLine bc cp l s) := by
  intro l
  induction l with
  | nil => intro s; exact ⟨rfl, rfl, fun h => h, by simp [drawLine]⟩
  | cons d ds ih =>
    intro s
    have hstep : stepOk s (if d ≠ ' ' then saddch bc cp s else saddch d 0 s) := by
      split
      · exact saddch_stepOk bc cp s
      · exact saddch_stepOk d 0 s
    unfold drawLine
    split
    next u s1 heq =>
      rw [heq] at hstep
      exact stepOk_seq hstep.1 hstep.2.1 hstep.2.2.1 (ih (sclrtoeol s1))
    next e s1 heq =>
      rw [heq] at hstep
      exact hstep

theorem glyphRowAttempt_stepOk (bc : Char) (cp : Nat) (row col : Int)
    (l : List Char) (s : Screen) : stepOk s (glyphRowAttempt bc cp row col l s) := by
  have hm := smove_stepOk row col s
  unfold glyphRowAttempt
  split
  next u s1 heq =>
    rw [heq] at hm
    exact stepOk_seq hm.1 hm.2.1 hm.2.2.1 (drawLine_stepOk bc cp l s1)
  next e heq =>
    exact hm

theorem drawGlyph_ok (bc : Char) (cp : Nat) (col : Int) :
    ∀ (lines : List (List Char)) (row : Int) (s : Screen),
    ∃ t, drawGlyph bc cp col lines row s = (Except.ok (), t) ∧
      t.rows = s.rows ∧ t.cols = s.cols ∧ (inB s → inB t) := by
  intro lines
  induction lines with
  | nil => intro row s; exact ⟨s, rfl, rfl, rfl, id⟩
  | cons l ls ih =>
    intro row s
    obtain ⟨t, ht, a, b, c⟩ := tryCurses_ok (glyphRowAttempt_stepOk bc cp row col l s)
    obtain ⟨u, hu, a2, b2, c2⟩ := ih (row + 1) t
    refine ⟨u, ?_, a2.trans a, b2.trans b, fun hb => c2 (c hb)⟩
    unfold drawGlyph
    rw [ht]
    exact hu

theorem displayChar_ok (cs : CharSet) (bc : Char) (cp : Nat) (ch : Char)
    (s : Screen) (hs : inB s) :
    ∃ t, displayChar cs bc cp ch s = (Except.ok (), t) ∧
      t.rows = s.rows ∧ t.cols = s.cols ∧ inB t := by
  obtain ⟨t1, h1, a, b, c⟩ :=
    drawGlyph_ok bc cp s.cx ((csGet cs ch).map String.data) s.cy s
  have hbt1 : inB t1 := c hs
  have hcond : 0 ≤ s.cy ∧ s.cy < t1.rows ∧ 0 ≤ t1.cx ∧ t1.cx < t1.cols := by
    refine ⟨hs.1, ?_, hbt1.2.2.1, hbt1.2.2.2⟩
    rw [a]
    exact hs.2.1
  refine ⟨{ t1 with cy := s.cy, cx := t1.cx }, ?_, a, b, ?_⟩
  · unfold displayChar
    rw [h1]
    show smove s.cy t1.cx t1 = (Except.ok (), { t1 with cy := s.cy, cx := t1.cx })
    unfold smove
    rw [if_pos hcond]
  · exact ⟨hcond.1, hcond.2.1, hcond.2.2.1, hcond.2.2.2⟩

theorem drawChars_ok (cs : CharSet) (bc : Char) (cp : Nat) :
    ∀ (l : List Char) (s : Screen), inB s →
    ∃ t, drawChars cs bc cp l s = (Except.ok (), t) ∧
      t.rows = s.rows ∧ t.cols = s.cols ∧ inB t := by
  intro l
  induction l with
  | nil => intro s hs; exact ⟨s, rfl, rfl, rfl, hs⟩
  | cons c0 rest ih =>
    intro s hs
    obtain ⟨t, ht, a, b, c⟩ := displayChar_ok cs bc cp c0 s hs
    obtain ⟨u, hu, a2, b2, c2⟩ := ih t c
    refine ⟨u, ?_, a2.trans a, b2.trans b, c2⟩
    unfold drawChars
    rw [ht]
    exact hu

theorem saddstrChars_stepOk :
    ∀ (l : List Char) (s : Screen), stepOk s (saddstrChars l s) := by
  intro l
  induction l with
  | nil => intro s; exact ⟨rfl, rfl, fun h => h, by simp [saddstrChars]⟩
  | cons c0 rest ih =>
    intro s
    have hstep := saddch_stepOk c0 0 s
    unfold saddstrChars
    split
    next u s1 heq =>
      rw [heq] at hstep
      exact stepOk_seq hstep.1 hstep.2.1 hstep.2.2.1 (ih s1)
    next e heq =>
      exact hstep

theorem saddstr_stepOk (r c : Int) (str : String) (s : Screen) :
    stepOk s (saddstr r c str s) := by
  have hm := smove_stepOk r c s
  unfold saddstr
  split
  next u s1 heq =>
    rw [heq] at hm
    exact stepOk_seq hm.1 hm.2.1 hm.2.2.1 (saddstrChars_stepOk str.data s1)
  next e heq =>
    exact hm

theorem footNoteInner_stepOk (s : Screen) : stepOk s (footNoteInner s) := by
  have h1 := saddstr_stepOk (s.rows - 2) 0 "<ESC> or <EOT> to exit" s
  unfold footNoteInner
  split
  next u s1 heq =>
    rw [heq] at h1
    have h2 := saddstr_stepOk (s.rows - 1) 0 "F1 - Change font, F2 - Change style" s1
    refine stepOk_seq h1.1 h1.2.1 h1.2.2.1 ?_
    split
    next u2 s2 heq2 =>
      rw [heq2] at h2
      exact ⟨h2.1, h2.2.1, h2.2.2.1, by simp⟩
    next e heq2 =>
      exact h2
  next e heq =>
    exact h1

theorem footNote_ok (s : Screen) :
    ∃ t, footNote s = (Except.ok (), t) ∧
      t.rows = s.rows ∧ t.cols = s.cols ∧ (inB s → inB t) := by
  unfold footNote
  exact tryCurses_ok (footNoteInner_stepOk s)

theorem clearBelowInner_stepOk (cs : CharSet) (s : Screen) :
    stepOk s (clearBelowInner cs s) := by
  have hm := smove_stepOk (glyphHeightZero cs) 0 s
  unfold clearBelowInner
  split
  next u t heq =>
    rw [heq] at hm
    exact ⟨hm.1, hm.2.1, hm.2.2.1, by simp⟩
  next e heq =>
    exact hm

theorem clearBelow_ok (cs : CharSet) (s : Screen) :
    ∃ t, clearBelow cs s = (Except.ok (), t) ∧
      t.rows = s.rows ∧ t.cols = s.cols ∧ (inB s → inB t) := by
  unfold clearBelow
  exact tryCurses_ok (clearBelowInner_stepOk cs s)

theorem andThenU_ok (u : Unit) (t : Screen)
    (k : Screen → Except PyErr DState × Screen) :
    andThenU (Except.ok u, t) k = k t := rfl

theorem updatePageNum_ok (st' : DState) (n : ℚ) (s : Screen) (hs : inB s) :
    ∃ t, updatePageNum st' n s = (Except.ok st', t) ∧
      t.rows = s.rows ∧ t.cols = s.cols ∧ inB t := by
  have hrow : (0 : Int) < s.rows := lt_of_le_of_lt hs.1 hs.2.1
  have hcol : (0 : Int) < s.cols := lt_of_le_of_lt hs.2.2.1 hs.2.2.2
  have hmv : smove 0 0 s = (Except.ok (), { s with cy := 0, cx := 0 }) := by
    unfold smove
    rw [if_pos ⟨le_refl 0, hrow, le_refl 0, hcol⟩]
  have hb1 : inB { s with cy := 0, cx := 0 } := ⟨le_refl 0, hrow, le_refl 0, hcol⟩
  obtain ⟨t2, h2, a2, b2, c2⟩ :=
    drawChars_ok st'.char_set st'.base_char st'.color_pair
      (numString n st'.unit).data { s with cy := 0, cx := 0 } hb1
  obtain ⟨t3, h3, a3, b3, c3⟩ := clearBelow_ok st'.char_set t2
  obtain ⟨t4, h4, a4, b4, c4⟩ := footNote_ok t3
  refine ⟨srefresh t4, ?_, a4.trans (a3.trans a2), b4.trans (b3.trans b2),
    c4 (c3 c2)⟩
  unfold updatePageNum
  rw [hmv, andThenU_ok, h2, andThenU_ok, h3, andThenU_ok, h4, andThenU_ok]

theorem updatePage_ok (st : DState) (n : ℚ) (s : Screen)
    (hn : st.number = NumVal.numF n) (hs : inB s) :
    ∃ t, updatePage st s = (Except.ok (repaintState st n), t) ∧
      t.rows = s.rows ∧ t.cols = s.cols ∧ inB t := by
  have hrw : updatePage st s = updatePageNum (repaintState st n) n s := by
    unfold updatePage
    rw [hn]
  rw [hrw]
  exact updatePageNum_ok (repaintState st n) n s hs

/-! ### Cycling invariants (`handle_f1`/`handle_f2`) -/

theorem font_cycle : ∀ cs ∈ CHAR_SETS_L, nextFont^[4] cs = cs := by decide

theorem base_cycle : ∀ bc ∈ BASE_CHARACTERS_L, nextBase^[8] bc = bc := by decide

theorem iterState_f1 (k : Nat) :
    ∀ (st : DState) (n : ℚ) (s : Screen), st.number = NumVal.numF n → inB s →
    ∃ st' t, iterState handleF1 k st s = (Except.ok st', t) ∧
      st'.char_set = nextFont^[k] st.char_set ∧
      st'.base_char = st.base_char ∧
      st'.number = st.number ∧
      st'.unit = st.unit ∧
      st'.pair_positive = st.pair_positive ∧
      st'.pair_negative = st.pair_negative ∧ inB t := by
  induction k with
  | zero =>
    intro st n s hn hs
    exact ⟨st, s, rfl, rfl, rfl, rfl, rfl, rfl, rfl, hs⟩
  | succ k ih =>
    intro st n s hn hs
    obtain ⟨t1, h1, a1, b1, c1⟩ :=
      updatePage_ok { st with char_set := nextFont st.char_set } n s hn hs
    obtain ⟨st', t, hiter, hcs, hbc, hnum, hunit, hpp, hpn, hbt⟩ :=
      ih (repaintState { st with char_set := nextFont st.char_set } n) n t1 hn c1
    refine ⟨st', t, ?_, ?_, hbc, hnum, hunit, hpp, hpn, hbt⟩
    · unfold iterState handleF1
      rw [h1]
      exact hiter
    · rw [hcs]
      show nextFont^[k] (nextFont st.char_set) = nextFont^[k + 1] st.char_set
      exact (Function.iterate_succ_apply nextFont k st.char_set).symm

theorem iterState_f2 (k : Nat) :
    ∀ (st : DState) (n : ℚ) (s : Screen), st.number = NumVal.numF n → inB s →
    ∃ st' t, iterState handleF2 (k + 1) st s = (Except.ok st', t) ∧
      st'.base_char = nextBase^[k + 1] st.base_char ∧
      st'.pair_positive = derivedPosPair st'.base_char ∧
      st'.pair_negative = derivedNegPair st'.base_char ∧
      st'.char_set = st.char_set ∧
      st'.number = st.number ∧
      st'.unit = st.unit ∧ inB t := by
  induction k with
  | zero =>
    intro st n s hn hs
    obtain ⟨t1, h1, a1, b1, c1⟩ := updatePage_ok (f2State st) n s hn hs
    refine ⟨repaintState (f2State st) n, t1, ?_, ?_, rfl, rfl, rfl, rfl, rfl, c1⟩
    · unfold iterState handleF2
      rw [h1]
      rfl
    · show nextBase st.base_char = nextBase^[1] st.base_char
      exact (Function.iterate_one nextBase ▸ rfl)
  | succ k ih =>
    intro st n s hn hs
    obtain ⟨t1, h1, a1, b1, c1⟩ := updatePage_ok (f2State st) n s hn hs
    obtain ⟨st', t, hiter, hbc, hpp, hpn, hcs, hnum, hunit, hbt⟩ :=
      ih (repaintState (f2State st) n) n t1 hn c1
    refine ⟨st', t, ?_, ?_, hpp, hpn, hcs, hnum, hunit, hbt⟩
    · unfold iterState handleF2
      rw [h1]
      exact hiter
    · rw [hbc]
      show nextBase^[k + 1] (nextBase st.base_char) = nextBase^[k + 1 + 1] st.base_char
      exact (Function.iterate_succ_apply nextBase (k + 1) st.base_char).symm

theorem string_append_empty (s : String) : s ++ "" = s := by
  apply String.ext
  rw [String.data_append]
  simp

/-- The Python `abs` of the embedding agrees with the mathematical
absolute value. -/
theorem pyAbs_eq_abs (q : ℚ) : pyAbs q = |q| := by
  unfold pyAbs
  split
  next h => rw [abs_of_neg h]; rfl
  next h => rw [abs_of_nonneg (le_of_not_lt h)]

/-! ### Claims -/

/-- C1 (code bug in `display_number`/`update_page`): for an input line
that does not match the measurement pattern the parser does yield the
failure sentinel without raising, but the repaint then *raises
`TypeError`* instead of displaying `9.999 xx`: `display_number` stores
the *string* `'9.999'` in `self.number` and `update_page` evaluates
`n < 0` on it, a `str`/`int` comparison.  Evaluated here on the
non-matching line `"hello"` against the startup state. -/
theorem c1_parse_failure_raises :
    parseLine "hello" = none ∧
    (displayNumber "hello" initState (scr 24 80)).1 = Except.error PyErr.typeError := by
  constructor
  · decide
  · rfl

/-- C2: every line matching
`<optional sign><digits>.<digits><whitespace><unit-token>` parses to
the exact value of the signed decimal literal, with unit exactly `"mm"`
when the unit token is `mm` and exactly `"in"` for any other token —
never the failure sentinel. -/
theorem c2_match_parses (line numG unitG : String)
    (h : matchIndicator line = some (numG, unitG)) :
    parseLine line =
      some (pyFloatOfLiteral numG, if unitG == "mm" then "mm" else "in") ∧
    parseLine line ≠ none ∧
    (unitG = "mm" → parseLine line = some (pyFloatOfLiteral numG, "mm")) ∧
    (unitG ≠ "mm" → parseLine line = some (pyFloatOfLiteral numG, "in")) := by
  have h1 : parseLine line =
      some (pyFloatOfLiteral numG, if unitG == "mm" then "mm" else "in") := by
    unfold parseLine
    rw [h]
    rfl
  refine ⟨h1, by rw [h1]; simp, ?_, ?_⟩
  · intro he
    rw [h1, if_pos (by simp [he])]
  · intro he
    rw [h1, if_neg (by simp [he])]

theorem c2_match_parses_witness :
    parseLine "12.34 mm" =
      some (pyFloatOfLiteral "12.34", if "mm" == "mm" then "mm" else "in") ∧
    parseLine "12.34 mm" ≠ none ∧
    ("mm" = "mm" → parseLine "12.34 mm" = some (pyFloatOfLiteral "12.34", "mm")) ∧
    ("mm" ≠ "mm" → parseLine "12.34 mm" = some (pyFloatOfLiteral "12.34", "in")) :=
  c2_match_parses "12.34 mm" "12.34" "mm" (by decide)

/-- C3 counterexample: feeding `b"12.34 mm\n"` into an empty line
buffer produces exactly one DisplayValue call, but its argument is
`"12.34 mm\n"` — the terminator is *not* stripped — refuting the
claimed call with `"12.34 mm"`. -/
theorem c3_terminator_kept :
    (serialStep "" "12.34 mm\n").1 = ["12.34 mm\n"] ∧
    (serialStep "" "12.34 mm\n").1 ≠ ["12.34 mm"] := by
  constructor
  · decide
  · decide

/-- C3 (amended): when the buffer comes to end with a line terminator,
the line *including the terminator* is passed to DisplayValue exactly
once and the buffer is reset to empty; `b"12.34 mm\n"` produces exactly
one call with `"12.34 mm\n"` and an empty buffer, while `b"12.3"`
produces zero calls and the partial line is retained. -/
theorem c3_line_buffer :
    (∀ buf chunk : String,
      serialStep buf chunk =
        if endsWithNl (buf ++ chunk) then ([buf ++ chunk], "")
        else ([], buf ++ chunk)) ∧
    serialStep "" "12.34 mm\n" = (["12.34 mm\n"], "") ∧
    serialStep "" "12.3" = ([], "12.3") := by
  refine ⟨?_, by decide, by decide⟩
  intro buf chunk
  have hline : (if (chunk == "") = true then buf else buf ++ chunk) = buf ++ chunk := by
    by_cases hc : chunk = ""
    · subst hc
      rw [if_pos (by simp), string_append_empty]
    · rw [if_neg (by simpa using hc)]
  unfold serialStep
  rw [hline]

/-- C4: a repaint of a numeric value never raises or propagates an
error for *any* window geometry (in particular geometries smaller than
the glyph block): every drawing call that would index outside the
window either sits inside a `try/except curses.error` or — for the two
`move`s outside a try — targets coordinates the cursor invariant keeps
in-window.  `inB s` is exactly the curses invariant that the cursor is
inside the window. -/
theorem c4_resize_safe (st : DState) (n : ℚ) (s : Screen)
    (hn : st.number = NumVal.numF n) (hs : inB s) :
    ∃ st' t, updatePage st s = (Except.ok st', t) := by
  obtain ⟨t, ht, _, _, _⟩ := updatePage_ok st n s hn hs
  exact ⟨repaintState st n, t, ht⟩

theorem c4_resize_safe_witness :
    ∃ st' t, updatePage initState (scr 1 1) = (Except.ok st', t) :=
  c4_resize_safe initState 0 (scr 1 1) rfl (by decide)

/-- C5 counterexample: the `'i'` glyph of `CHAR_SET3` (a variant of the
catalog) is not a rectangular grid — its first row is 2 cells wide
while the remaining rows are 3 — so "every glyph is a rectangular
grid" fails. -/
theorem c5_i_glyph_not_rect :
    glyphRect (glyphOf CHAR_SET3 'i') = false ∧ CHAR_SET3 ∈ CHAR_SETS_L := by
  constructor
  · decide
  · decide

/-- C5 (amended): in every font variant the glyphs for the digits 0-9,
`'-'`, `'.'` and the fallback `'?'` all exist and each of them is a
rectangular grid; every other glyph is rectangular as well *except* the
`'i'` glyph of the third and fourth variants, whose first row is one
row narrower than the rest. -/
theorem c5_catalog_glyphs :
    (CHAR_SETS_L.all (fun cs =>
      requiredChars.all (fun c => ((cs.lookup c).map glyphRect).getD false))) = true ∧
    (CHAR_SETS_L.all (fun cs =>
      cs.all (fun p =>
        glyphRect p.2 || (p.1 == 'i' && (cs == CHAR_SET3 || cs == CHAR_SET4))))) = true := by
  constructor
  · decide
  · decide

/-- C6: `update_page` formats the stored value as a sign character
(`'-'` for negative, `' '` otherwise) followed by the fixed-precision
magnitude — 2 decimal places when the unit is `"mm"`, 4 otherwise (in
particular for `"in"`) — then a space and the unit string; value `12.3`
with `mm` gives `" 12.30 mm"` and `-0.5` with `in` gives
`"-0.5000 in"`.  `numString` is the `num_str` that `updatePage` draws. -/
theorem c6_number_format :
    (∀ (q : ℚ) (u : String),
      numString q u =
        String.mk [if q < 0 then '-' else ' '] ++
          formatFixed |q| (if u == "mm" then 2 else 4) ++ " " ++ u) ∧
    numString (mkRat 123 10) "mm" = " 12.30 mm" ∧
    numString (mkRat (-1) 2) "in" = "-0.5000 in" := by
  refine ⟨fun q u => ?_, by decide, by decide⟩
  rw [show |q| = pyAbs q from (pyAbs_eq_abs q).symm]
  rfl

/-- C7: on every repaint of a numeric value, a value `< 0` selects the
negative color pair and a value `≥ 0` the positive one — for every
state, hence every combination of font variant and fill symbol (and
whichever pairs `handle_f2` last installed). -/
theorem c7_sign_selects_pair (st : DState) (n : ℚ) (s : Screen)
    (hn : st.number = NumVal.numF n) (hs : inB s) :
    ∃ t, updatePage st s =
      (Except.ok { st with color_pair :=
        if n < 0 then st.pair_negative else st.pair_positive }, t) := by
  obtain ⟨t, ht, _, _, _⟩ := updatePage_ok st n s hn hs
  exact ⟨t, ht⟩

theorem c7_sign_selects_pair_witness :
    ∃ t, updatePage { initState with number := NumVal.numF (-1) } (scr 2 3) =
      (Except.ok { { initState with number := NumVal.numF (-1) } with
        color_pair := if (-1 : ℚ) < 0
          then { initState with number := NumVal.numF (-1) }.pair_negative
          else { initState with number := NumVal.numF (-1) }.pair_positive }, t) :=
  c7_sign_selects_pair { initState with number := NumVal.numF (-1) } (-1) (scr 2 3)
    rfl (by decide)

/-- C8: cycling is a round trip.  `handle_f1` applied 4 times (the
number of font variants) restores the font variant; `handle_f2` applied
8 times (the number of fill symbols) restores the fill symbol and the
derived color pairs (SAME_ON_SAME exactly for the blank sentinel, else
ON_BLACK), given a state whose pairs are the ones derived from its fill
symbol — which holds at startup and after every `handle_f2`. -/
theorem c8_cycles_round_trip (st : DState) (n : ℚ) (s : Screen)
    (hn : st.number = NumVal.numF n) (hs : inB s)
    (hcs : st.char_set ∈ CHAR_SETS_L) (hbc : st.base_char ∈ BASE_CHARACTERS_L)
    (hpp : st.pair_positive = derivedPosPair st.base_char)
    (hpn : st.pair_negative = derivedNegPair st.base_char) :
    (∃ st4 t4, iterState handleF1 4 st s = (Except.ok st4, t4) ∧
      st4.char_set = st.char_set) ∧
    (∃ st8 t8, iterState handleF2 8 st s = (Except.ok st8, t8) ∧
      st8.base_char = st.base_char ∧
      st8.pair_positive = st.pair_positive ∧
      st8.pair_negative = st.pair_negative) := by
  constructor
  · obtain ⟨st', t, hiter, hcs', hbc0, hnum, hunit, hpp0, hpn0, hbt⟩ :=
      iterState_f1 4 st n s hn hs
    exact ⟨st', t, hiter, by rw [hcs', font_cycle st.char_set hcs]⟩
  · obtain ⟨st', t, hiter, hbc', hpp', hpn', hcs2, hnum, hunit, hbt⟩ :=
      iterState_f2 7 st n s hn hs
    have h8 : st'.base_char = st.base_char := by
      rw [hbc']
      exact base_cycle st.base_char hbc
    refine ⟨st', t, hiter, h8, ?_, ?_⟩
    · rw [hpp', h8, hpp]
    · rw [hpn', h8, hpn]

theorem c8_cycles_round_trip_witness :
    (∃ st4 t4, iterState handleF1 4 initState (scr 1 1) = (Except.ok st4, t4) ∧
      st4.char_set = initState.char_set) ∧
    (∃ st8 t8, iterState handleF2 8 initState (scr 1 1) = (Except.ok st8, t8) ∧
      st8.base_char = initState.base_char ∧
      st8.pair_positive = initState.pair_positive ∧
      st8.pair_negative = initState.pair_negative) :=
  c8_cycles_round_trip initState 0 (scr 1 1) rfl (by decide) (by decide)
    (by decide) (by decide) (by decide)

def portA : PortInfo :=
  { port := "/dev/ttyUSB0", desc := "Arduino Uno", hwid := "USB VID 2341" }

def portB : PortInfo :=
  { port := "/dev/ttyUSB1", desc := "FTDI adapter", hwid := "USB VID 0403" }

/-- C9: startup exit statuses.  Zero discovered candidates: notice and
exit 0.  More than one candidate with none explicitly selected: all
candidates listed and exit 0.  Serial open failure: the error is
reported and the process exits with the non-zero status `-1` with the
curses terminal never initialized (the `with` statement enters
`serial.Serial` before `IndicatorDisplay`). -/
theorem c9_startup_exits :
    (∀ lo : Bool, GetPort lo [] = StartupOutcome.exited 0 ["No ports found"]) ∧
    (∀ (lp : Bool) (ps : List PortInfo), 1 < ps.length →
      mainStartup lp none ps = StartupOutcome.exited 0 (ps.map portLine)) ∧
    (∀ e : String,
      (selectLoopStartup (some e)).exitCode = some (-1) ∧
      ((-1 : Int) ≠ 0) ∧
      (selectLoopStartup (some e)).terminalInitialized = false ∧
      (selectLoopStartup (some e)).messages = ["Problem opening monitor: " ++ e]) := by
  refine ⟨fun lo => rfl, ?_, fun e => ⟨rfl, by decide, rfl, rfl⟩⟩
  intro lp ps hlen
  cases ps with
  | nil => simp at hlen
  | cons p0 rest =>
    unfold mainStartup
    rw [if_pos (by simp)]
    show (if (lp || decide (1 < (p0 :: rest).length)) = true
        then StartupOutcome.exited 0 (List.map portLine (p0 :: rest))
        else StartupOutcome.portChosen p0.port) =
      StartupOutcome.exited 0 (List.map portLine (p0 :: rest))
    rw [if_pos (by simp at hlen ⊢; omega)]

theorem c9_startup_exits_witness :
    mainStartup false none [portA, portB] =
      StartupOutcome.exited 0 ([portA, portB].map portLine) :=
  c9_startup_exits.2.1 false [portA, portB] (by decide)

/-- C10: in every font variant the glyphs for `' '` and `'-'` are both
rectangular grids of exactly the same width, so a positive and a
negative reading of the same magnitude occupy the same screen columns. -/
theorem c10_space_minus_same_width :
    CHAR_SETS_L.all (fun cs =>
      glyphRect (glyphOf cs ' ') && glyphRect (glyphOf cs '-') &&
        (glyphWidth (glyphOf cs ' ') == glyphWidth (glyphOf cs '-'))) = true := by
  decide
